import Mathlib

/-!
Verification development for the job-keyword-analyzer repository.

The development shallowly embeds two layers of the repository:

* the React frontend handlers that are present verbatim in the sources
  (the authentication reducer, the job-search handler, the CV-suggestion
  handler, and the missing-skill rendering), and
* the sector-aware extraction / classification / aggregation /
  recommendation core, which the repository describes in its design
  documents; those definitions are marked `Modelled from the spec:` in
  their doc comments.

Fractional quantities (confidences, weights, scores) are embedded as
fixed-point natural numbers: configuration values are stored in
thousandths (0 .. 1000 standing for 0.0 .. 1.0) and derived match
confidences in ten-millionths, so that every operation is exact natural
arithmetic.  The feasibility fraction of a sector transition is stated
over `ℚ` in the theorems, linked to the executable integer test by an
explicit bridge lemma.
-/

namespace JobKeywordAnalyzer

/-! ## Text utilities

Character-list implementations of the string operations the embedded
code needs (`trim`, splitting on commas, case-insensitive substring
search).  They mirror the JavaScript semantics used by the frontend and
the case-insensitive scanning described for the extraction core. -/

/-- Lower-case a character list; models case-insensitive comparison. -/
def lowerChars (cs : List Char) : List Char :=
  cs.map Char.toLower

/-- Character list of a string, lower-cased. -/
def lcData (s : String) : List Char :=
  lowerChars s.data

/-- JavaScript-style `trim`: drop whitespace from both ends. -/
def jsTrim (s : String) : String :=
  String.mk (((s.data.dropWhile Char.isWhitespace).reverse.dropWhile
    Char.isWhitespace).reverse)

/-- Does `pat` occur at the head of `s`? -/
def matchesAt : List Char → List Char → Bool
  | [], _ => true
  | _ :: _, [] => false
  | p :: ps, c :: cs => p == c && matchesAt ps cs

/-- Fuel-driven scan behind `occPositions`.  Every step consumes at
least one character, so fuel equal to the text length suffices; the
fuel only makes the recursion structural. -/
def occPositionsFuel (pat : List Char) : Nat → List Char → Nat → List Nat
  | 0, _, _ => []
  | fuel + 1, s, i =>
      match s with
      | [] => []
      | c :: rest =>
          if 0 < pat.length ∧ matchesAt pat (c :: rest) then
            i :: occPositionsFuel pat fuel (List.drop (pat.length - 1) rest)
              (i + pat.length)
          else
            occPositionsFuel pat fuel rest (i + 1)

/-- Start positions of the non-overlapping occurrences of `pat` in `s`,
`i` being the index of the head of `s` in the full text.  After a match
the scan resumes past the matched span, as the extraction core scans
for non-overlapping occurrences. -/
def occPositions (pat : List Char) (s : List Char) (i : Nat) : List Nat :=
  occPositionsFuel pat s.length s i

/-- Number of non-overlapping occurrences of `pat` in `s`. -/
def countOccs (pat s : List Char) : Nat :=
  (occPositions pat s 0).length

/-- Split a character list at commas (JavaScript `split(',')`). -/
def splitCommaAux (cur : List Char) : List Char → List (List Char)
  | [] => [cur.reverse]
  | c :: rest =>
      if c = ',' then cur.reverse :: splitCommaAux [] rest
      else splitCommaAux (c :: cur) rest

/-- Split a string at commas into its comma-separated fields. -/
def splitComma (s : String) : List String :=
  (splitCommaAux [] s.data).map String.mk

/-! ## Frontend: authentication reducer

Embedded from the authentication context module: the action set, the
initial state, and the reducer, field for field.  Payload values that
JavaScript leaves untyped are embedded as `Option String` (user) and
`Option (String × String)` (access/refresh token pair). -/

/-- Authentication state held by the auth context. -/
structure AuthState where
  user : Option String
  tokens : Option (String × String)
  isAuthenticated : Bool
  isLoading : Bool
  error : Option String
deriving DecidableEq

/-- Actions dispatched to the authentication reducer; `other` stands
for any action type not recognised by the switch. -/
inductive AuthAction where
  | loginStart : AuthAction
  | loginSuccess : Option String → Option (String × String) → AuthAction
  | loginFailure : String → AuthAction
  | logout : AuthAction
  | setUser : Option String → Option (String × String) → AuthAction
  | clearError : AuthAction
  | other : AuthAction
deriving DecidableEq

/-- Initial authentication state. -/
def initialState : AuthState :=
  { user := none, tokens := none, isAuthenticated := false, isLoading := true, error := none }

/-- The authentication reducer, case for case from the source switch. -/
def authReducer (state : AuthState) : AuthAction → AuthState
  | .loginStart =>
      { state with isLoading := true, error := none }
  | .loginSuccess u t =>
      { state with user := u, tokens := t, isAuthenticated := true, isLoading := false, error := none }
  | .loginFailure msg =>
      { state with user := none, tokens := none, isAuthenticated := false, isLoading := false, error := some msg }
  | .logout =>
      { state with user := none, tokens := none, isAuthenticated := false, isLoading := false, error := none }
  | .setUser u t =>
      { state with user := u, tokens := t, isAuthenticated := true, isLoading := false }
  | .clearError =>
      { state with error := none }
  | .other => state

/-- State reached from `initialState` after a sequence of actions. -/
def runAuth (acts : List AuthAction) : AuthState :=
  acts.foldl authReducer initialState

/-! ## Frontend: search and CV-suggestion handlers -/

/-- First observable step of the `searchJobs` handler: either it clears
the result list and returns, or it issues the search request with the
given query and limit. -/
inductive SearchStep where
  | clearResults : SearchStep
  | requestSearch : String → Nat → SearchStep
deriving DecidableEq

/-- The guard and request of `searchJobs`: a query whose trimmed form
is empty clears the results and returns; otherwise the handler requests
the search endpoint with the query and limit 20. -/
def searchJobs (query : String) : SearchStep :=
  if jsTrim query = "" then .clearResults
  else .requestSearch query 20

/-- First observable step of the `getCvSuggestions` handler: either an
alert message, or the suggestion request carrying the parsed skills. -/
inductive CvStep where
  | alertMsg : String → CvStep
  | requestSuggestions : List String → CvStep
deriving DecidableEq

/-- Skill parsing of `getCvSuggestions`: split the input on commas,
trim each field, and drop the blank fields. -/
def parseSkills (userSkills : String) : List String :=
  ((splitComma userSkills).map jsTrim).filter (fun s => s ≠ "")

/-- The `getCvSuggestions` handler: a skills input whose trimmed form
is empty triggers an alert and returns before any computation;
otherwise the parsed skill list is sent to the suggestion endpoint. -/
def getCvSuggestions (userSkills : String) : CvStep :=
  if jsTrim userSkills = "" then .alertMsg "Veuillez entrer vos compétences"
  else .requestSuggestions (parseSkills userSkills)

/-! ## Frontend: missing-skill rendering and the declared priority type -/

/-- Priority type of the `Recommendation` interface declared in the
design document: one of three free-text labels. -/
inductive DesignPriority where
  | high : DesignPriority
  | medium : DesignPriority
  | low : DesignPriority
deriving DecidableEq

/-- The string a `DesignPriority` denotes in the declared interface. -/
def DesignPriority.label : DesignPriority → String
  | .high => "high"
  | .medium => "medium"
  | .low => "low"

/-- The `Recommendation` interface as declared in the design document:
`priority` is one of the free-text labels high / medium / low. -/
structure DesignRecommendation where
  rtype : String
  sector : String
  priority : DesignPriority
  description : String
  actionItems : List String

/-- A missing-skill suggestion as consumed by the CV tab of the
frontend: `priority` arrives as a string and `marketDemand` as the
demand count shown to the user. -/
structure MissingSkillSuggestion where
  skill : String
  priority : String
  category : String
  marketDemand : Nat
deriving DecidableEq

/-- Border colour the frontend gives a missing-skill card: red when the
priority string equals `"HIGH"`, amber otherwise. -/
def missingSkillBorderColor (s : MissingSkillSuggestion) : String :=
  if s.priority = "HIGH" then "#dc2626" else "#f59e0b"

/-- Background colour of a missing-skill card, branching on the same
free-text priority string. -/
def missingSkillBackground (s : MissingSkillSuggestion) : String :=
  if s.priority = "HIGH" then "#fef2f2" else "#fffbeb"

/-! ## Core data model

Modelled from the spec: the sector-aware core (registry, extractor,
classifier, aggregation, recommendation) is described by the design
documents but its implementation is not among the repository sources,
so the definitions below follow the spec text.  Confidences and
thresholds are stored in thousandths; derived match confidences in
ten-millionths. -/

/-- Modelled from the spec: a keyword pattern of a sector configuration
(`keyword`, `category`, literal matchers, base confidence in
thousandths). -/
structure KeywordPattern where
  keyword : String
  category : String
  matchers : List String
  baseConfidence : Nat
deriving DecidableEq

/-- Modelled from the spec: a seniority rule
(label, indicator phrases, weight). -/
structure SeniorityRule where
  label : String
  indicatorPhrases : List String
  weight : Nat
deriving DecidableEq

/-- Modelled from the spec: a sector configuration.  The confidence
threshold is stored in thousandths, so the interval 0 .. 1 of the spec
is 0 .. 1000 here. -/
structure SectorConfig where
  id : String
  keywordPatterns : List KeywordPattern
  seniorityRules : List SeniorityRule
  confidenceThreshold : Nat
  minKeywordFrequency : Nat
deriving DecidableEq

/-- Modelled from the spec: a single keyword match of the extractor,
confidence in ten-millionths (0 .. 10000000 standing for 0.0 .. 1.0). -/
structure KeywordMatch where
  keyword : String
  category : String
  confidence : Nat
  position : Nat
  contextSnippet : String
deriving DecidableEq

/-- Intermediate match record of the extractor, carrying the matched
span length used by the overlap-suppression pass. -/
structure RawMatch where
  keyword : String
  category : String
  confidence : Nat
  position : Nat
  len : Nat
deriving DecidableEq

/-! ## KeywordExtractor -/

/-- Word constituent test used by the word-boundary check. -/
def isWordChar (c : Char) : Bool :=
  c.isAlphanum

/-- Modelled from the spec: position weight in hundredths; matches in
the first 20 percent of the text get a slight boost. -/
def positionWeight (pos textLen : Nat) : Nat :=
  if pos * 5 < textLen then 110 else 100

/-- Modelled from the spec: isolation weight in hundredths; a match
inside a longer word (no word boundary on either side) is pushed down
to near zero. -/
def isolationWeight (text : List Char) (pos len : Nat) : Nat :=
  let beforeOk := pos == 0 || !isWordChar (text.getD (pos - 1) ' ')
  let afterOk :=
    decide (text.length ≤ pos + len) || !isWordChar (text.getD (pos + len) ' ')
  if beforeOk && afterOk then 100 else 5

/-- Scale of a derived match confidence: thousandths times two factors
of hundredths. -/
def confScale : Nat := 10000000

/-- Modelled from the spec: confidence of one occurrence, the product
of base confidence, position weight and isolation weight, clamped to
the unit interval (here: to `confScale`). -/
def matchConfidence (text : List Char) (base pos len : Nat) : Nat :=
  min (base * positionWeight pos text.length * isolationWeight text pos len)
    confScale

/-- The sector confidence threshold lifted to the `confScale` scale. -/
def thresholdScaled (cfg : SectorConfig) : Nat :=
  cfg.confidenceThreshold * 10000

/-- Half width of a context snippet. -/
def snippetRadius : Nat := 30

/-- Bounded-length substring around a match. -/
def makeSnippet (text : List Char) (pos len : Nat) : String :=
  String.mk ((text.drop (pos - snippetRadius)).take (len + 2 * snippetRadius))

/-- Modelled from the spec: all raw matches of one keyword pattern in
the lower-cased text, one entry per non-overlapping occurrence of any
of its matchers. -/
def patternMatches (text : List Char) (p : KeywordPattern) : List RawMatch :=
  (p.matchers.map (fun m =>
    let pat := lcData m
    (occPositions pat text 0).map (fun pos =>
      { keyword := p.keyword, category := p.category,
        confidence := matchConfidence text p.baseConfidence pos pat.length,
        position := pos, len := pat.length }))).flatten

/-- Raw matches of every pattern, those below the confidence threshold
discarded. -/
def candidates (text : List Char) (cfg : SectorConfig) : List RawMatch :=
  ((cfg.keywordPatterns.map (patternMatches text)).flatten).filter
    (fun m => decide (thresholdScaled cfg ≤ m.confidence))

/-- Is `m` fully contained in the strictly longer match `mm`? -/
def containedInLonger (m mm : RawMatch) : Bool :=
  decide (m.len < mm.len) && decide (mm.position ≤ m.position) &&
    decide (m.position + m.len ≤ mm.position + mm.len)

/-- Modelled from the spec overlap policy: a match fully contained in a
longer accepted match is suppressed. -/
def suppressContained (ms : List RawMatch) : List RawMatch :=
  ms.filter (fun m => !(ms.any (fun mm => containedInLonger m mm)))

/-- Forget the span length, attach the context snippet. -/
def toKeywordMatch (text : List Char) (m : RawMatch) : KeywordMatch :=
  { keyword := m.keyword, category := m.category, confidence := m.confidence,
    position := m.position, contextSnippet := makeSnippet text m.position m.len }

/-- Output order of the extractor: confidence descending, then position
ascending. -/
def matchOrder (a b : KeywordMatch) : Prop :=
  b.confidence < a.confidence ∨
    (a.confidence = b.confidence ∧ a.position ≤ b.position)

instance : DecidableRel matchOrder := fun a b => by
  unfold matchOrder
  infer_instance

instance : IsTotal KeywordMatch matchOrder := by
  constructor
  intro a b
  unfold matchOrder
  omega

instance : IsTrans KeywordMatch matchOrder := by
  constructor
  intro a b c
  unfold matchOrder
  omega

/-- Modelled from the spec: the extractor.  Empty or whitespace-only
text yields the empty list; otherwise all candidate matches above the
threshold survive overlap suppression and are sorted by confidence
descending, then position ascending. -/
def extract (text : String) (cfg : SectorConfig) : List KeywordMatch :=
  if text.data.all Char.isWhitespace then []
  else
    List.insertionSort matchOrder
      ((suppressContained (candidates (lcData text) cfg)).map
        (toKeywordMatch (lcData text)))

/-! ## SeniorityClassifier -/

/-- Modelled from the spec: the score one rule contributes to its
label, the case-insensitive occurrence count of its indicator phrases
multiplied by the rule weight. -/
def ruleScore (textLower : List Char) (r : SeniorityRule) : Nat :=
  ((r.indicatorPhrases.map (fun p => countOccs (lcData p) textLower)).sum) *
    r.weight

/-- Per-label scores of every seniority rule. -/
def labelScores (textLower : List Char) (cfg : SectorConfig) :
    List (String × Nat) :=
  cfg.seniorityRules.map (fun r => (r.label, ruleScore textLower r))

/-- The highest label score (zero when there are no rules). -/
def bestScore (textLower : List Char) (cfg : SectorConfig) : Nat :=
  ((labelScores textLower cfg).map Prod.snd).foldl max 0

/-- The labelled scores that reach the highest score. -/
def winners (textLower : List Char) (cfg : SectorConfig) :
    List (String × Nat) :=
  (labelScores textLower cfg).filter
    (fun p => decide (p.2 = bestScore textLower cfg))

/-- Modelled from the spec: the classifier.  The label with the
strictly highest score wins; on a tie, or when every score is zero, the
result is `"unspecified"`. -/
def classify (text : String) (cfg : SectorConfig) : String :=
  if bestScore (lcData text) cfg = 0 ∨ (winners (lcData text) cfg).length ≠ 1
  then "unspecified"
  else ((winners (lcData text) cfg).headD ("unspecified", 0)).1

/-! ## SectorRegistry -/

/-- Modelled from the spec: the validation-failure taxonomy of a sector
configuration. -/
inductive ConfigError where
  | duplicateKeyword : ConfigError
  | thresholdOutOfRange : ConfigError
  | emptyMatcherList : ConfigError
deriving DecidableEq

/-- Failure taxonomy of `load`: a validation failure, or an unknown
sector id. -/
inductive LoadError where
  | config : ConfigError → LoadError
  | notFound : LoadError
deriving DecidableEq

/-- Modelled from the spec: eager validation of a raw configuration.
Duplicate keyword, threshold outside the unit interval (above 1000 in
the thousandths encoding), and an empty matcher list each fail with the
matching `ConfigError`. -/
def validateConfig (raw : SectorConfig) : Except ConfigError SectorConfig :=
  if ¬ (raw.keywordPatterns.map (fun p => p.keyword)).Nodup then
    .error .duplicateKeyword
  else if 1000 < raw.confidenceThreshold then
    .error .thresholdOutOfRange
  else if raw.keywordPatterns.any (fun p => p.matchers.isEmpty) then
    .error .emptyMatcherList
  else
    .ok raw

/-- Modelled from the spec: `load` resolves the sector id in the
configuration source and validates the raw configuration eagerly. -/
def load (source : List (String × SectorConfig)) (sectorId : String) :
    Except LoadError SectorConfig :=
  match source.lookup sectorId with
  | none => .error .notFound
  | some raw =>
      match validateConfig raw with
      | .ok cfg => .ok cfg
      | .error e => .error (.config e)

/-! ## OfferAnalyzer and AggregationEngine -/

/-- Modelled from the spec: one analysis result per posting. -/
structure AnalysisResult where
  offerId : String
  sectorId : String
  keywords : List KeywordMatch
  seniority : String
  analyzedAt : Nat
deriving DecidableEq

/-- Modelled from the spec: the aggregation state, per-sector
per-keyword cumulative frequency and last-seen timestamp. -/
structure AggregationEngine where
  freq : String → String → Nat
  lastSeen : String → String → Nat

/-- The engine before any result has been merged. -/
def emptyEngine : AggregationEngine :=
  { freq := fun _ _ => 0, lastSeen := fun _ _ => 0 }

/-- Number of matches of keyword `k` in one analysis result. -/
def countMatches (r : AnalysisResult) (k : String) : Nat :=
  r.keywords.countP (fun m => m.keyword == k)

/-- Add `n` to the frequency of `(sec, k)` and stamp its last-seen
time. -/
def bumpStat (e : AggregationEngine) (sec k : String) (n t : Nat) :
    AggregationEngine :=
  { freq := fun s kk =>
      if s = sec ∧ kk = k then e.freq s kk + n else e.freq s kk,
    lastSeen := fun s kk =>
      if s = sec ∧ kk = k then t else e.lastSeen s kk }

/-- The distinct keywords appearing in a result. -/
def resultKeywords (r : AnalysisResult) : List String :=
  (r.keywords.map (fun m => m.keyword)).dedup

/-- Modelled from the spec: merging one result walks its distinct
keywords, incrementing each frequency for the result sector by the
match count of that keyword and updating the last-seen time. -/
def merge (e : AggregationEngine) (r : AnalysisResult) : AggregationEngine :=
  (resultKeywords r).foldl
    (fun acc k => bumpStat acc r.sectorId k (countMatches r k) r.analyzedAt) e

/-- Merge a batch of results in order. -/
def mergeAll (e : AggregationEngine) (rs : List AnalysisResult) :
    AggregationEngine :=
  rs.foldl merge e

/-! ## RecommendationEngine -/

/-- Modelled from the spec: one snapshot row of the aggregation
statistics.  `trendScore` is the scaled EWMA value of the current time
bucket and `prevTrendScore` the value of the previous bucket, retained
so the growth-rate comparison of emerging opportunities is computable
from the snapshot. -/
structure SectorKeywordStat where
  sectorId : String
  keyword : String
  category : String
  frequency : Nat
  trendScore : Nat
  prevTrendScore : Nat
  lastSeen : Nat
deriving DecidableEq

/-- The three recommendation types. -/
inductive RecType where
  | skill_gap : RecType
  | transition : RecType
  | emerging_opportunity : RecType
deriving DecidableEq

/-- Modelled from the spec: a recommendation with a derived numeric
priority and a relevance score in thousandths. -/
structure Recommendation where
  rtype : RecType
  sectorId : String
  priority : Nat
  title : String
  rationale : String
  actionItems : List String
  relevanceScore : Nat
deriving DecidableEq

/-- Modelled from the spec: a user profile. -/
structure UserProfile where
  primarySectorId : String
  currentSkills : List String
  targetSectorIds : List String
deriving DecidableEq

/-- Snapshot rows of one sector. -/
def sectorStats (snapshot : List SectorKeywordStat) (sec : String) :
    List SectorKeywordStat :=
  snapshot.filter (fun st => st.sectorId == sec)

/-- Trend order used to pick top skill gaps: trend score descending,
keyword ascending as the deterministic tie-break. -/
def trendOrder (a b : SectorKeywordStat) : Prop :=
  b.trendScore < a.trendScore ∨
    (a.trendScore = b.trendScore ∧ a.keyword ≤ b.keyword)

instance : DecidableRel trendOrder := fun a b => by
  unfold trendOrder
  infer_instance

/-- Frequency order used to pick essential skills: frequency
descending, keyword ascending as the deterministic tie-break. -/
def freqOrder (a b : SectorKeywordStat) : Prop :=
  b.frequency < a.frequency ∨
    (a.frequency = b.frequency ∧ a.keyword ≤ b.keyword)

instance : DecidableRel freqOrder := fun a b => by
  unfold freqOrder
  infer_instance

/-- Modelled from the spec: the essential skills of a sector, its top
quartile of keywords by cumulative frequency. -/
def essentialSkills (snapshot : List SectorKeywordStat) (sec : String) :
    List String :=
  let stats := sectorStats snapshot sec
  ((List.insertionSort freqOrder stats).take ((stats.length + 3) / 4)).map
    (fun st => st.keyword)

/-- Number of essential skills already covered by the user skills. -/
def coveredCount (skills ess : List String) : Nat :=
  (ess.filter (fun k => skills.contains k)).length

/-- Modelled from the spec: feasibility of a transition, the fraction
of the target sector essential skills contained in the user skills. -/
def feasibility (snapshot : List SectorKeywordStat) (skills : List String)
    (sec : String) : ℚ :=
  (coveredCount skills (essentialSkills snapshot sec) : ℚ) /
    ((essentialSkills snapshot sec).length : ℚ)

/-- Integer form of the feasibility test `feasibility > 0.6`, cleared
of denominators. -/
def transitionOk (snapshot : List SectorKeywordStat) (skills : List String)
    (sec : String) : Bool :=
  decide (6 * (essentialSkills snapshot sec).length <
    10 * coveredCount skills (essentialSkills snapshot sec))

/-- Feasibility in thousandths, used as the numeric priority of a
transition recommendation. -/
def feasibilityPermille (snapshot : List SectorKeywordStat)
    (skills : List String) (sec : String) : Nat :=
  if (essentialSkills snapshot sec).length = 0 then 0
  else (1000 * coveredCount skills (essentialSkills snapshot sec)) /
    (essentialSkills snapshot sec).length

/-- Modelled from the spec: transition recommendations, one per target
sector whose feasibility is above 0.6, carrying the missing essential
skills as action items. -/
def transitionRecs (snapshot : List SectorKeywordStat) (p : UserProfile) :
    List Recommendation :=
  p.targetSectorIds.filterMap (fun tgt =>
    if transitionOk snapshot p.currentSkills tgt then
      some { rtype := .transition, sectorId := tgt,
             priority := feasibilityPermille snapshot p.currentSkills tgt,
             title := String.append "Transition: " tgt,
             rationale := "feasible sector transition",
             actionItems := (essentialSkills snapshot tgt).filter
               (fun k => !(p.currentSkills.contains k)),
             relevanceScore := feasibilityPermille snapshot p.currentSkills tgt }
    else none)

/-- Number of top trend keywords considered for skill gaps. -/
def topGapCount : Nat := 5

/-- Modelled from the spec: skill-gap recommendations, the top trend
keywords of the primary sector that the user does not have; priority
grows with trend score and with market presence. -/
def skillGapRecs (snapshot : List SectorKeywordStat) (p : UserProfile) :
    List Recommendation :=
  ((List.insertionSort trendOrder
      ((sectorStats snapshot p.primarySectorId).filter
        (fun st => !(p.currentSkills.contains st.keyword)))).take
    topGapCount).map (fun st =>
    { rtype := .skill_gap, sectorId := p.primarySectorId,
      priority := st.trendScore * (st.frequency + 1),
      title := String.append "Learn " st.keyword,
      rationale := "trending keyword missing from current skills",
      actionItems := [st.keyword],
      relevanceScore := min st.trendScore 1000 })

/-- Modelled from the spec: emerging opportunities, keywords whose
current trend-bucket value exceeds one and a half times the previous
bucket value, surfaced regardless of the user skills with a lower
exploratory relevance. -/
def emergingRecs (snapshot : List SectorKeywordStat) (p : UserProfile) :
    List Recommendation :=
  ((sectorStats snapshot p.primarySectorId).filter
    (fun st => decide (3 * st.prevTrendScore < 2 * st.trendScore))).map
    (fun st =>
      { rtype := .emerging_opportunity, sectorId := p.primarySectorId,
        priority := st.trendScore,
        title := String.append "Emerging: " st.keyword,
        rationale := "fast-growing keyword, exploratory",
        actionItems := [st.keyword],
        relevanceScore := 300 })

/-- Final order of the merged recommendation list: priority descending,
then relevance score descending. -/
def recOrder (a b : Recommendation) : Prop :=
  b.priority < a.priority ∨
    (a.priority = b.priority ∧ b.relevanceScore ≤ a.relevanceScore)

instance : DecidableRel recOrder := fun a b => by
  unfold recOrder
  infer_instance

/-- Default result cap of `recommend`. -/
def defaultMaxResults : Nat := 10

/-- Modelled from the spec: the recommendation engine merges the three
independent recommendation lists, sorts them by priority and relevance
descending, and truncates to `maxResults`. -/
def recommend (snapshot : List SectorKeywordStat) (p : UserProfile)
    (maxResults : Nat) : List Recommendation :=
  (List.insertionSort recOrder
    (skillGapRecs snapshot p ++ transitionRecs snapshot p ++
      emergingRecs snapshot p)).take maxResults

/-! ## Invariant and concrete fixtures used by the theorems below -/

/-- The authentication invariant: an unauthenticated state holds no
user and no tokens. -/
def authInv (s : AuthState) : Prop :=
  s.isAuthenticated = false → s.user = none ∧ s.tokens = none

/-- A small sector configuration used to instantiate the extraction
and classification theorems. -/
def fixtureCfg : SectorConfig :=
  { id := "tech",
    keywordPatterns := [{ keyword := "Python", category := "language", matchers := ["python"], baseConfidence := 900 }],
    seniorityRules := [
      { label := "senior", indicatorPhrases := ["senior"], weight := 2 },
      { label := "junior", indicatorPhrases := ["junior"], weight := 1 }],
    confidenceThreshold := 500, minKeywordFrequency := 1 }

/-- A configuration with a duplicate keyword, used to instantiate the
validation theorem. -/
def dupCfg : SectorConfig :=
  { id := "legal",
    keywordPatterns := [
      { keyword := "GDPR", category := "domain", matchers := ["gdpr"], baseConfidence := 800 },
      { keyword := "GDPR", category := "domain", matchers := ["rgpd"], baseConfidence := 700 }],
    seniorityRules := [], confidenceThreshold := 500,
    minKeywordFrequency := 1 }

/-- An analysis-result fixture with two matches of one keyword. -/
def resultA : AnalysisResult :=
  { offerId := "o1", sectorId := "tech",
    keywords := [
      { keyword := "Python", category := "language", confidence := 9000000, position := 10, contextSnippet := "" },
      { keyword := "Python", category := "language", confidence := 9000000, position := 32, contextSnippet := "" }],
    seniority := "unspecified", analyzedAt := 1 }

/-- An analysis-result fixture for a second keyword. -/
def resultB : AnalysisResult :=
  { offerId := "o2", sectorId := "tech",
    keywords := [
      { keyword := "Docker", category := "tool", confidence := 8000000, position := 4, contextSnippet := "" }],
    seniority := "senior", analyzedAt := 2 }

/-- An analysis-result fixture for a second sector. -/
def resultC : AnalysisResult :=
  { offerId := "o3", sectorId := "legal",
    keywords := [
      { keyword := "GDPR", category := "domain", confidence := 7000000, position := 0, contextSnippet := "" }],
    seniority := "unspecified", analyzedAt := 3 }

/-- A snapshot fixture for one target sector with four keywords. -/
def fixtureSnap : List SectorKeywordStat :=
  [{ sectorId := "data", keyword := "python", category := "language", frequency := 10, trendScore := 50, prevTrendScore := 50, lastSeen := 3 },
   { sectorId := "data", keyword := "java", category := "language", frequency := 5, trendScore := 40, prevTrendScore := 40, lastSeen := 3 },
   { sectorId := "data", keyword := "go", category := "language", frequency := 3, trendScore := 30, prevTrendScore := 30, lastSeen := 3 },
   { sectorId := "data", keyword := "rust", category := "language", frequency := 2, trendScore := 20, prevTrendScore := 20, lastSeen := 3 }]

/-- A profile fixture targeting the snapshot sector. -/
def fixtureProfile : UserProfile :=
  { primarySectorId := "none", currentSkills := ["python"],
    targetSectorIds := ["data"] }

/-- The transition recommendation `recommend` produces for the
fixtures above. -/
def fixtureRec : Recommendation :=
  { rtype := .transition, sectorId := "data", priority := 1000,
    title := String.append "Transition: " "data",
    rationale := "feasible sector transition", actionItems := [],
    relevanceScore := 1000 }

/-! ## Theorems -/

/-- One reducer step preserves the authentication invariant. -/
theorem authInv_step (s : AuthState) (a : AuthAction) (h : authInv s) :
    authInv (authReducer s a) := by
  cases a with
  | loginStart => intro hf; exact h hf
  | loginSuccess u t => intro hf; cases hf
  | loginFailure msg => intro _; exact ⟨rfl, rfl⟩
  | logout => intro _; exact ⟨rfl, rfl⟩
  | setUser u t => intro hf; cases hf
  | clearError => intro hf; exact h hf
  | other => exact h

/-- Folding the reducer over any action list preserves the
authentication invariant. -/
theorem authInv_foldl (acts : List AuthAction) :
    ∀ s : AuthState, authInv s → authInv (acts.foldl authReducer s) := by
  induction acts with
  | nil => intro s h; exact h
  | cons a t ih => intro s h; exact ih (authReducer s a) (authInv_step s a h)

/-- C9: every state the reducer can reach from the initial state with
`isAuthenticated = false` has no user and no tokens; `LOGOUT` always
yields the cleared state, and an unrecognised action leaves the state
unchanged. -/
theorem authReducer_unauthenticated_invariant :
    (∀ acts : List AuthAction, (runAuth acts).isAuthenticated = false →
      (runAuth acts).user = none ∧ (runAuth acts).tokens = none) ∧
    (∀ s : AuthState, authReducer s .logout =
      { user := none, tokens := none, isAuthenticated := false,
        isLoading := false, error := none }) ∧
    (∀ s : AuthState, authReducer s .other = s) := by
  refine ⟨?_, ?_, ?_⟩
  · intro acts
    exact authInv_foldl acts initialState (fun _ => ⟨rfl, rfl⟩)
  · intro s; rfl
  · intro s; rfl

/-- Witness for C9 at the action list `[LOGIN_START]`. -/
theorem authReducer_invariant_witness :
    (runAuth [AuthAction.loginStart]).user = none ∧
      (runAuth [AuthAction.loginStart]).tokens = none :=
  authReducer_unauthenticated_invariant.1 [AuthAction.loginStart] rfl

/-- C10: a query whose trimmed form is empty makes `searchJobs` clear
the result list and return without issuing the search request. -/
theorem searchJobs_blank_query_clears (q : String) (h : jsTrim q = "") :
    searchJobs q = SearchStep.clearResults := by
  unfold searchJobs
  rw [if_pos h]

/-- Witness for C10 at a whitespace-only query. -/
theorem searchJobs_blank_witness :
    searchJobs "   " = SearchStep.clearResults :=
  searchJobs_blank_query_clears "   " (by decide)

/-- C8 counterexample: an empty skills input is rejected by
`getCvSuggestions` with an alert, before any computation; no request is
issued for it. -/
theorem getCvSuggestions_rejects_empty_skills :
    getCvSuggestions "" = CvStep.alertMsg "Veuillez entrer vos compétences" ∧
      ∀ skills : List String,
        getCvSuggestions "" ≠ CvStep.requestSuggestions skills := by
  refine ⟨by decide, ?_⟩
  intro skills h
  rw [show getCvSuggestions "" =
    CvStep.alertMsg "Veuillez entrer vos compétences" by decide] at h
  exact CvStep.noConfusion h

/-- C8 amended: a skills input that trims to empty is rejected with an
alert before any computation; only a non-blank input is parsed and sent
to the suggestion endpoint. -/
theorem getCvSuggestions_blank_guard (s : String) :
    (jsTrim s = "" →
      getCvSuggestions s = CvStep.alertMsg "Veuillez entrer vos compétences") ∧
    (jsTrim s ≠ "" →
      getCvSuggestions s = CvStep.requestSuggestions (parseSkills s)) := by
  constructor
  · intro h; unfold getCvSuggestions; rw [if_pos h]
  · intro h; unfold getCvSuggestions; rw [if_neg h]

/-- Witness for the amended C8, at an empty and a non-blank input. -/
theorem getCvSuggestions_guard_witness :
    getCvSuggestions "" = CvStep.alertMsg "Veuillez entrer vos compétences" ∧
      getCvSuggestions "Python" =
        CvStep.requestSuggestions (parseSkills "Python") :=
  ⟨(getCvSuggestions_blank_guard "").1 (by decide),
    (getCvSuggestions_blank_guard "Python").2 (by decide)⟩

/-- C7 counterexample: the repository's recommendations carry free-text
priorities.  The declared interface admits a recommendation whose
priority is the label `"high"`, and the frontend branches on the
priority string `"HIGH"` when rendering a missing skill. -/
theorem recommendation_priority_free_text_counterexample :
    (DesignRecommendation.mk "skill_gap" "tech" DesignPriority.high "" []).priority.label = "high" ∧
    missingSkillBorderColor
      { skill := "Docker", priority := "HIGH", category := "tool",
        marketDemand := 5 } = "#dc2626" ∧
    missingSkillBorderColor
      { skill := "Kubernetes", priority := "MEDIUM", category := "tool",
        marketDemand := 3 } = "#f59e0b" :=
  ⟨rfl, by decide, by decide⟩

/-- C7 amended: recommendation priorities in this repository are
free-text labels, not numeric scores: the declared interface restricts
`priority` to the labels high, medium and low, and the frontend styles
a missing-skill card by comparing its priority string with `"HIGH"`. -/
theorem recommendation_priority_labels :
    (∀ pr : DesignPriority,
      pr.label = "high" ∨ pr.label = "medium" ∨ pr.label = "low") ∧
    (∀ s : MissingSkillSuggestion, missingSkillBorderColor s =
      if s.priority = "HIGH" then "#dc2626" else "#f59e0b") ∧
    (∀ s : MissingSkillSuggestion, missingSkillBackground s =
      if s.priority = "HIGH" then "#fef2f2" else "#fffbeb") := by
  refine ⟨?_, fun s => rfl, fun s => rfl⟩
  intro pr
  cases pr with
  | high => exact Or.inl rfl
  | medium => exact Or.inr (Or.inl rfl)
  | low => exact Or.inr (Or.inr rfl)

/-- C5: the extractor maps empty and whitespace-only text to the empty
list, for every sector configuration. -/
theorem extract_blank_text_empty :
    (∀ cfg : SectorConfig, extract "" cfg = []) ∧
    (∀ (cfg : SectorConfig) (text : String),
      text.data.all Char.isWhitespace = true → extract text cfg = []) := by
  constructor
  · intro cfg
    unfold extract
    rw [if_pos (by decide)]
  · intro cfg text h
    unfold extract
    rw [if_pos h]

/-- Witness for C5 at a whitespace-only text. -/
theorem extract_blank_witness : extract " \t  " fixtureCfg = [] :=
  extract_blank_text_empty.2 fixtureCfg " \t  " (by decide)

/-- C4: the extractor output is sorted by confidence descending with
position ascending as tie-break, and extraction is a deterministic
function of its input. -/
theorem extract_sorted_and_deterministic :
    (∀ (text : String) (cfg : SectorConfig),
      List.Sorted matchOrder (extract text cfg)) ∧
    (∀ (t1 t2 : String) (c1 c2 : SectorConfig), t1 = t2 → c1 = c2 →
      extract t1 c1 = extract t2 c2) := by
  constructor
  · intro text cfg
    unfold extract
    split
    · exact List.sorted_nil
    · exact List.sorted_insertionSort matchOrder _
  · intro t1 t2 c1 c2 h1 h2
    rw [h1, h2]

/-- Witness for C4: two extractions of the same posting coincide. -/
theorem extract_sorted_witness :
    extract "We need a Python developer" fixtureCfg =
      extract "We need a Python developer" fixtureCfg :=
  extract_sorted_and_deterministic.2 "We need a Python developer"
    "We need a Python developer" fixtureCfg fixtureCfg rfl rfl

/-- The seed of a maximum fold bounds the fold from below. -/
theorem init_le_foldl_max (l : List Nat) : ∀ a : Nat, a ≤ l.foldl max a := by
  induction l with
  | nil => intro a; exact le_refl a
  | cons b t ih => intro a; exact le_trans (le_max_left a b) (ih (max a b))

/-- Every member of the list bounds a maximum fold from below. -/
theorem mem_le_foldl_max (l : List Nat) :
    ∀ (a x : Nat), x ∈ l → x ≤ l.foldl max a := by
  induction l with
  | nil => intro a x hx; cases hx
  | cons b t ih =>
      intro a x hx
      rcases List.mem_cons.mp hx with rfl | hx
      · exact le_trans (le_max_right a x) (init_le_foldl_max t _)
      · exact ih _ x hx

/-- A maximum fold over an all-zero list from seed zero is zero. -/
theorem foldl_max_all_zero (l : List Nat) (h : ∀ x ∈ l, x = 0) :
    l.foldl max 0 = 0 := by
  induction l with
  | nil => rfl
  | cons b t ih =>
      have hb : b = 0 := h b (List.mem_cons_self b t)
      simp only [List.foldl_cons, hb, Nat.max_self]
      exact ih (fun x hx => h x (List.mem_cons_of_mem _ hx))

/-- C3: classification is deterministic; when every label score is zero
or at least two entries reach the highest score the result is
`"unspecified"`; and any other result is the label of a score entry
strictly above every other entry. -/
theorem classify_highest_score_spec :
    (∀ (t1 t2 : String) (c1 c2 : SectorConfig), t1 = t2 → c1 = c2 →
      classify t1 c1 = classify t2 c2) ∧
    (∀ (text : String) (cfg : SectorConfig),
      (∀ q ∈ labelScores (lcData text) cfg, q.2 = 0) →
      classify text cfg = "unspecified") ∧
    (∀ (text : String) (cfg : SectorConfig),
      2 ≤ (winners (lcData text) cfg).length →
      classify text cfg = "unspecified") ∧
    (∀ (text : String) (cfg : SectorConfig),
      classify text cfg ≠ "unspecified" →
      ∃ p ∈ labelScores (lcData text) cfg, classify text cfg = p.1 ∧
        ∀ q ∈ labelScores (lcData text) cfg, q ≠ p → q.2 < p.2) := by
  refine ⟨?_, ?_, ?_, ?_⟩
  · intro t1 t2 c1 c2 h1 h2
    rw [h1, h2]
  · intro text cfg hall
    have hb : bestScore (lcData text) cfg = 0 := by
      unfold bestScore
      refine foldl_max_all_zero _ ?_
      intro x hx
      rcases List.mem_map.mp hx with ⟨q, hq, rfl⟩
      exact hall q hq
    unfold classify
    rw [if_pos (Or.inl hb)]
  · intro text cfg h2
    unfold classify
    rw [if_pos (Or.inr (by omega))]
  · intro text cfg hne
    by_cases hcond : bestScore (lcData text) cfg = 0 ∨
        (winners (lcData text) cfg).length ≠ 1
    · exfalso
      apply hne
      unfold classify
      rw [if_pos hcond]
    · push_neg at hcond
      obtain ⟨hb0, hw1⟩ := hcond
      obtain ⟨p, hp⟩ := List.length_eq_one.mp hw1
      have hpw : p ∈ winners (lcData text) cfg := by
        rw [hp]; exact List.mem_singleton.mpr rfl
      have hpfacts := List.mem_filter.mp hpw
      have hpmem : p ∈ labelScores (lcData text) cfg := hpfacts.1
      have hpbest : p.2 = bestScore (lcData text) cfg :=
        of_decide_eq_true hpfacts.2
      refine ⟨p, hpmem, ?_, ?_⟩
      · unfold classify
        rw [if_neg (by push_neg; exact ⟨hb0, hw1⟩), hp]
        rfl
      · intro q hq hqp
        have hqle : q.2 ≤ bestScore (lcData text) cfg := by
          unfold bestScore
          exact mem_le_foldl_max _ 0 q.2 (List.mem_map_of_mem Prod.snd hq)
        rcases lt_or_eq_of_le hqle with hlt | heq
        · rw [← hpbest] at hlt; exact hlt
        · exfalso
          apply hqp
          have hqw : q ∈ winners (lcData text) cfg :=
            List.mem_filter.mpr ⟨hq, decide_eq_true heq⟩
          rw [hp] at hqw
          exact List.mem_singleton.mp hqw

/-- Witness for C3: a posting with no indicator phrase classifies as
`"unspecified"` because every label score is zero. -/
theorem classify_spec_witness : classify "nothing here" fixtureCfg = "unspecified" :=
  classify_highest_score_spec.2.1 "nothing here" fixtureCfg (by decide)

/-- A configuration accepted by validation is the raw configuration
itself and its keywords are pairwise distinct. -/
theorem validateConfig_ok (raw cfg : SectorConfig)
    (h : validateConfig raw = Except.ok cfg) :
    cfg = raw ∧ (raw.keywordPatterns.map (fun p => p.keyword)).Nodup := by
  unfold validateConfig at h
  split at h
  · cases h
  · split at h
    · cases h
    · split at h
      · cases h
      · rename_i hnd _ _
        rw [not_not] at hnd
        cases h
        exact ⟨rfl, hnd⟩

/-- C6: a configuration delivered by `load` has pairwise-distinct
keywords, and a configuration source entry with a duplicate keyword
makes `load` fail with the duplicate-keyword `ConfigError`. -/
theorem load_rejects_duplicate_keywords :
    (∀ (source : List (String × SectorConfig)) (sid : String)
      (cfg : SectorConfig), load source sid = Except.ok cfg →
      (cfg.keywordPatterns.map (fun p => p.keyword)).Nodup) ∧
    (∀ (source : List (String × SectorConfig)) (sid : String)
      (raw : SectorConfig), source.lookup sid = some raw →
      ¬ (raw.keywordPatterns.map (fun p => p.keyword)).Nodup →
      load source sid = Except.error (LoadError.config ConfigError.duplicateKeyword)) := by
  constructor
  · intro source sid cfg h
    cases hlook : source.lookup sid with
    | none => simp [load, hlook] at h
    | some raw =>
        cases hval : validateConfig raw with
        | ok c =>
            simp [load, hlook, hval] at h
            subst h
            obtain ⟨rfl, hnd⟩ := validateConfig_ok raw _ hval
            exact hnd
        | error e2 => simp [load, hlook, hval] at h
  · intro source sid raw hlook hdup
    have hv : validateConfig raw = Except.error ConfigError.duplicateKeyword := by
      unfold validateConfig
      rw [if_pos hdup]
    simp only [load, hlook, hv]

/-- Witness for C6: loading the duplicate-keyword fixture fails with
the duplicate-keyword error. -/
theorem load_duplicate_witness :
    load [("legal", dupCfg)] "legal" =
      Except.error (LoadError.config ConfigError.duplicateKeyword) :=
  load_rejects_duplicate_keywords.2 [("legal", dupCfg)] "legal" dupCfg
    (by decide) (by decide)

/-- Frequency view of one bump. -/
theorem bumpStat_freq (e : AggregationEngine) (sec k : String) (n t : Nat)
    (s kk : String) :
    (bumpStat e sec k n t).freq s kk =
      if s = sec ∧ kk = k then e.freq s kk + n else e.freq s kk := rfl

/-- Frequency view of a fold of bumps over pairwise-distinct keywords:
each key receives exactly its own increment. -/
theorem foldl_bump_freq (ks : List String) :
    ∀ (e : AggregationEngine) (sec : String) (f : String → Nat) (t : Nat)
      (s k : String), ks.Nodup →
      ((ks.foldl (fun acc kk => bumpStat acc sec kk (f kk) t) e).freq s k =
        e.freq s k + if s = sec ∧ k ∈ ks then f k else 0) := by
  induction ks with
  | nil => intro e sec f t s k _; simp
  | cons k1 kt ih =>
      intro e sec f t s k hnd
      rw [List.foldl_cons, ih _ sec f t s k (List.nodup_cons.mp hnd).2,
        bumpStat_freq]
      by_cases hs : s = sec
      · by_cases hk : k = k1
        · subst hs; subst hk
          have hknot : k ∉ kt := (List.nodup_cons.mp hnd).1
          simp [hknot]
        · simp [hs, hk, List.mem_cons]
      · simp [hs]

/-- The keyword list a merge walks is pairwise distinct. -/
theorem resultKeywords_nodup (r : AnalysisResult) :
    (resultKeywords r).Nodup :=
  List.nodup_dedup _

/-- A keyword that never occurs in a result has match count zero
there. -/
theorem countMatches_eq_zero (r : AnalysisResult) (k : String)
    (h : k ∉ resultKeywords r) : countMatches r k = 0 := by
  unfold countMatches
  rw [List.countP_eq_zero]
  intro m hm hk
  apply h
  unfold resultKeywords
  rw [List.mem_dedup]
  have : m.keyword = k := by simpa using hk
  rw [← this]
  exact List.mem_map_of_mem _ hm

/-- Frequency view of merging one result: the result sector's count of
each keyword is added, other sectors are untouched. -/
theorem merge_freq (e : AggregationEngine) (r : AnalysisResult)
    (s k : String) :
    (merge e r).freq s k =
      e.freq s k + if s = r.sectorId then countMatches r k else 0 := by
  unfold merge
  rw [foldl_bump_freq (resultKeywords r) e r.sectorId _ r.analyzedAt s k
    (resultKeywords_nodup r)]
  by_cases hs : s = r.sectorId
  · by_cases hk : k ∈ resultKeywords r
    · simp [hs, hk]
    · simp [hs, hk, countMatches_eq_zero r k hk]
  · simp [hs]

/-- Frequency view of merging a batch: the initial count plus the sum
of the per-result contributions. -/
theorem mergeAll_freq (rs : List AnalysisResult) :
    ∀ (e : AggregationEngine) (s k : String),
      (mergeAll e rs).freq s k =
        e.freq s k +
          ((rs.map (fun r => if s = r.sectorId then countMatches r k else 0)).sum) := by
  induction rs with
  | nil => intro e s k; simp [mergeAll]
  | cons r rt ih =>
      intro e s k
      have h1 : mergeAll e (r :: rt) = mergeAll (merge e r) rt := rfl
      rw [h1, ih (merge e r) s k, merge_freq, List.map_cons, List.sum_cons,
        Nat.add_assoc]

/-- C2: the final frequency of every sector-keyword pair is invariant
under reordering and regrouping of the merged batch, and a single merge
adds to each keyword of the result sector exactly its match count in
that result, leaving other sectors unchanged. -/
theorem merge_frequency_commutative_and_incremental :
    (∀ (e : AggregationEngine) (rs1 rs2 : List AnalysisResult),
      rs1.Perm rs2 → ∀ s k : String,
      (mergeAll e rs1).freq s k = (mergeAll e rs2).freq s k) ∧
    (∀ (e : AggregationEngine) (l1 l2 : List AnalysisResult),
      mergeAll (mergeAll e l1) l2 = mergeAll e (l1 ++ l2)) ∧
    (∀ (e : AggregationEngine) (r : AnalysisResult) (k : String),
      (merge e r).freq r.sectorId k =
        e.freq r.sectorId k + countMatches r k) ∧
    (∀ (e : AggregationEngine) (r : AnalysisResult) (s k : String),
      s ≠ r.sectorId → (merge e r).freq s k = e.freq s k) := by
  refine ⟨?_, ?_, ?_, ?_⟩
  · intro e rs1 rs2 hperm s k
    rw [mergeAll_freq rs1 e s k, mergeAll_freq rs2 e s k,
      (hperm.map (fun r => if s = r.sectorId then countMatches r k else 0)).sum_eq]
  · intro e l1 l2
    unfold mergeAll
    rw [List.foldl_append]
  · intro e r k
    rw [merge_freq, if_pos rfl]
  · intro e r s k hs
    rw [merge_freq, if_neg hs]
    simp

/-- Witness for C2: merging the three result fixtures in two different
orders leaves the counted frequency equal. -/
theorem merge_frequency_witness :
    (mergeAll emptyEngine [resultA, resultB, resultC]).freq "tech" "Python" =
      (mergeAll emptyEngine [resultC, resultA, resultB]).freq "tech" "Python" :=
  merge_frequency_commutative_and_incremental.1 emptyEngine
    [resultA, resultB, resultC] [resultC, resultA, resultB] (by decide)
    "tech" "Python"

/-- Every skill-gap recommendation is tagged as a skill gap. -/
theorem mem_skillGapRecs_rtype (snapshot : List SectorKeywordStat)
    (p : UserProfile) (r : Recommendation) (h : r ∈ skillGapRecs snapshot p) :
    r.rtype = RecType.skill_gap := by
  unfold skillGapRecs at h
  rcases List.mem_map.mp h with ⟨st, _, rfl⟩
  rfl

/-- Every emerging-opportunity recommendation is tagged as such. -/
theorem mem_emergingRecs_rtype (snapshot : List SectorKeywordStat)
    (p : UserProfile) (r : Recommendation) (h : r ∈ emergingRecs snapshot p) :
    r.rtype = RecType.emerging_opportunity := by
  unfold emergingRecs at h
  rcases List.mem_map.mp h with ⟨st, _, rfl⟩
  rfl

/-- Every transition recommendation is tagged as a transition and its
target sector passed the integer feasibility test. -/
theorem mem_transitionRecs_ok (snapshot : List SectorKeywordStat)
    (p : UserProfile) (r : Recommendation) (h : r ∈ transitionRecs snapshot p) :
    r.rtype = RecType.transition ∧
      transitionOk snapshot p.currentSkills r.sectorId = true := by
  unfold transitionRecs at h
  rcases List.mem_filterMap.mp h with ⟨tgt, _, heq⟩
  split at heq
  · rename_i hok
    injection heq with h2
    subst h2
    exact ⟨rfl, hok⟩
  · cases heq

/-- Bridge between the integer feasibility test and the rational
feasibility fraction: passing the test means the fraction exceeds
six tenths. -/
theorem transitionOk_feasibility (snapshot : List SectorKeywordStat)
    (skills : List String) (sec : String)
    (h : transitionOk snapshot skills sec = true) :
    (6 : ℚ) / 10 < feasibility snapshot skills sec := by
  unfold transitionOk at h
  rw [decide_eq_true_eq] at h
  have hle : coveredCount skills (essentialSkills snapshot sec) ≤
      (essentialSkills snapshot sec).length := by
    unfold coveredCount
    exact List.length_filter_le _ _
  have hd : 0 < (essentialSkills snapshot sec).length := by omega
  unfold feasibility
  rw [div_lt_div_iff₀ (by norm_num) (by exact_mod_cast hd)]
  have hq : 6 * (essentialSkills snapshot sec).length <
      coveredCount skills (essentialSkills snapshot sec) * 10 := by omega
  exact_mod_cast hq

/-- C1: `recommend` returns at most `maxResults` recommendations (the
default cap being 10), and the feasibility fraction of every returned
transition recommendation exceeds 0.6 on the snapshot given. -/
theorem recommend_capped_and_transitions_feasible
    (snapshot : List SectorKeywordStat) (p : UserProfile) (maxResults : Nat) :
    defaultMaxResults = 10 ∧
    (recommend snapshot p maxResults).length ≤ maxResults ∧
    ∀ r ∈ recommend snapshot p maxResults, r.rtype = RecType.transition →
      (6 : ℚ) / 10 < feasibility snapshot p.currentSkills r.sectorId := by
  refine ⟨rfl, ?_, ?_⟩
  · unfold recommend
    exact List.length_take_le _ _
  · intro r hr hrt
    have hr1 : r ∈ List.insertionSort recOrder
        (skillGapRecs snapshot p ++ transitionRecs snapshot p ++
          emergingRecs snapshot p) :=
      List.take_subset _ _ hr
    have hr2 := (List.perm_insertionSort recOrder _).subset hr1
    rcases List.mem_append.mp hr2 with h12 | h3
    · rcases List.mem_append.mp h12 with h1 | h2
      · have hg := mem_skillGapRecs_rtype snapshot p r h1
        rw [hrt] at hg
        exact RecType.noConfusion hg
      · exact transitionOk_feasibility snapshot p.currentSkills r.sectorId
          (mem_transitionRecs_ok snapshot p r h2).2
    · have hg := mem_emergingRecs_rtype snapshot p r h3
      rw [hrt] at hg
      exact RecType.noConfusion hg

/-- Witness for C1: on the snapshot fixture the single transition
recommendation returned carries a feasibility above 0.6, and the result
list respects the cap. -/
theorem recommend_capped_witness :
    (recommend fixtureSnap fixtureProfile 10).length ≤ 10 ∧
      (6 : ℚ) / 10 < feasibility fixtureSnap ["python"] "data" :=
  ⟨(recommend_capped_and_transitions_feasible fixtureSnap fixtureProfile 10).2.1,
   (recommend_capped_and_transitions_feasible fixtureSnap fixtureProfile 10).2.2
      fixtureRec (by decide) rfl⟩

end JobKeywordAnalyzer
